import Mathlib

set_option autoImplicit false

namespace Final2025

/- Python scalar values as they appear in schema fields and ORM columns.
   The code only passes ints and strings through (it never computes with
   them), so an opaque sum of the two covers every value the claims touch.
   Money amounts (floats in the source) are only copied, never added or
   compared, so they are embedded as `Int`. -/
inductive PyVal where
  | vint (n : Int)
  | vstr (s : String)
  deriving DecidableEq, Repr

/-- Python truthiness for the values above (`0` and `""` are falsy). -/
def PyVal.truthy : PyVal → Bool
  | .vint n => n != 0
  | .vstr s => s != ""

/-- Python `x or d` where `x` is an optional field (`None` is falsy). -/
def pyOr (v : Option PyVal) (d : PyVal) : PyVal :=
  match v with
  | some x => if x.truthy then x else d
  | none => d

/-- Python truthiness of an `Optional[int]` field (`None` and `0` are falsy). -/
def intTruthy (v : Option Int) : Bool :=
  match v with
  | some n => n != 0
  | none => false

/-! ## models/enums.py -/

/-- `DeliveryMethod(str, Enum)` from `models/enums.py`. -/
inductive DeliveryMethod where
  | DRIVE_THRU
  | ON_HAND
  | HOME_DELIVERY
  deriving DecidableEq, Repr

/-- The string value each `DeliveryMethod` member carries. -/
def DeliveryMethod.value : DeliveryMethod → String
  | .DRIVE_THRU => "drive_thru"
  | .ON_HAND => "on_hand"
  | .HOME_DELIVERY => "home_delivery"

/-- `Status(str, Enum)` from `models/enums.py`. -/
inductive Status where
  | PENDING
  | IN_PROGRESS
  | DELIVERED
  | CANCELED
  deriving DecidableEq, Repr

/-- The string value each `Status` member carries. -/
def Status.value : Status → String
  | .PENDING => "pending"
  | .IN_PROGRESS => "in_progress"
  | .DELIVERED => "delivered"
  | .CANCELED => "canceled"

/-! ## schemas/order_schema.py -/

/-- `OrderItemSchema`: one line item of an order. -/
structure OrderItemSchema where
  product_id : Int
  quantity : Int
  price : Int
  deriving DecidableEq, Repr

/-- `OrderSchema` after pydantic validation: the fields the service reads.
    `delivery_method` is `Optional[Union[int, str]]` with default `3`. -/
structure OrderSchema where
  client_name : String
  client_email : String
  client_phone : String
  shipping_address : String
  payment_method : String
  delivery_method : Option PyVal
  client_id : Option Int
  bill_id : Option Int
  items : List OrderItemSchema
  subtotal : Int
  tax : Int
  shipping_cost : Int
  total : Int
  status : String
  deriving DecidableEq, Repr

/-- The `valid_ints` list of `OrderSchema.validate_delivery_method`. -/
def valid_ints : List Int := [1, 2, 3]

/-- The `valid_strings` list of `OrderSchema.validate_delivery_method`. -/
def valid_strings : List String := ["drive_thru", "on_hand", "home_delivery"]

/-- `OrderSchema.validate_delivery_method`: rejects ints outside `[1,2,3]`
    and strings outside the three canonical names; every other value
    (including `None`) is returned unchanged. -/
def validate_delivery_method (v : Option PyVal) : Except String (Option PyVal) :=
  match v with
  | some (.vint n) =>
      if n ∈ valid_ints then .ok v
      else .error "delivery_method debe ser 1, 2 o 3"
  | some (.vstr s) =>
      if s ∈ valid_strings then .ok v
      else .error "delivery_method debe ser drive_thru, on_hand o home_delivery"
  | none => .ok v

/-! ## Generic entity rows (for `BaseRepositoryImpl`)

`BaseRepositoryImpl` works over any SQLAlchemy model: a row is its
`id_key` primary key plus named columns whose values may be NULL
(`Option PyVal`). The set of column names of `model.__table__` is a
parameter, as in the source. -/

/-- A persisted row of an arbitrary entity table. -/
structure EntityRow where
  id_key : Int
  fields : List (String × Option PyVal)
  deriving DecidableEq, Repr

/-- Python `key.startswith('_')` as a first-character test (the source
    only ever asks about the one-character needle `'_'`). -/
def startsWithUnderscore (s : String) : Bool :=
  match s.data with
  | [] => false
  | c :: _ => c = '_'

/-- Column lookup in a field list (first binding wins, like attribute
    access on an object whose attribute names are unique). -/
def lookupField : List (String × Option PyVal) → String → Option (Option PyVal)
  | [], _ => none
  | (k', v) :: rest, k => if k' = k then some v else lookupField rest k

/-- Overwrite (or add) one named column in a field list. -/
def setField : List (String × Option PyVal) → String → PyVal → List (String × Option PyVal)
  | [], k, v => [(k, some v)]
  | (k', v') :: rest, k, v =>
      if k' = k then (k', some v) :: rest else (k', v') :: setField rest k v

/-- Column lookup on a row. -/
def EntityRow.getField (r : EntityRow) (k : String) : Option (Option PyVal) :=
  lookupField r.fields k

/-- `setattr(instance, k, value)`: `id_key` is a real attribute, every other
    name updates (or adds) the named column. -/
def EntityRow.setAttr (r : EntityRow) (k : String) (v : PyVal) : EntityRow :=
  if k = "id_key" then
    match v with
    | .vint n => { r with id_key := n }
    | .vstr _ => r
  else
    { r with fields := setField r.fields k v }

namespace BaseRepositoryImpl

/-- `PROTECTED_ATTRIBUTES` of `BaseRepositoryImpl.update`. -/
def PROTECTED_ATTRIBUTES : List String := ["id_key", "_sa_instance_state"]

/-- `BaseRepositoryImpl.find`: first row whose `id_key` matches, else
    `InstanceNotFoundError`. -/
def find (rows : List EntityRow) (id_key : Int) : Except String EntityRow :=
  match rows.find? (fun r => r.id_key = id_key) with
  | some r => .ok r
  | none => .error "InstanceNotFoundError"

/-- Modelled from the spec: `config/constants.py` is not among the sources;
    the spec only says "limit clamped to a configured maximum", so the two
    `PaginationConfig` bounds are parameters of the embedding. -/
structure PaginationConfig where
  MIN_LIMIT : Int
  MAX_LIMIT : Int
  deriving DecidableEq, Repr

/-- `BaseRepositoryImpl.find_all`: rejects `skip < 0` and
    `limit < MIN_LIMIT` with `ValueError`, clamps `limit` to `MAX_LIMIT`,
    then returns the page `offset(skip).limit(limit)` of the table. -/
def find_all {α : Type} (cfg : PaginationConfig) (rows : List α)
    (skip limit : Int) : Except String (List α) :=
  if skip < 0 then .error "skip parameter must be >= 0"
  else if limit < cfg.MIN_LIMIT then .error "limit below MIN_LIMIT"
  else
    let limit := if limit > cfg.MAX_LIMIT then cfg.MAX_LIMIT else limit
    .ok ((rows.drop skip.toNat).take limit.toNat)

/-- The loop body of `BaseRepositoryImpl.update`: walks `changes.items()`
    in order; skips `None` values, underscore names and protected names;
    raises `ValueError` at the first name outside `allowed_columns`;
    otherwise `setattr`s the value on the in-memory instance. -/
def applyChanges (allowed_columns : List String)
    (inst : EntityRow) : List (String × Option PyVal) → Except String EntityRow
  | [] => .ok inst
  | (key, value) :: rest =>
      if value = none ∨ startsWithUnderscore key ∨ key ∈ PROTECTED_ATTRIBUTES then
        applyChanges allowed_columns inst rest
      else
        if key ∉ allowed_columns then
          .error "Invalid field"
        else
          match value with
          | some v => applyChanges allowed_columns (inst.setAttr key v) rest
          | none => applyChanges allowed_columns inst rest

/-- Committing an updated instance: the first row with the given `id_key`
    is replaced by the new in-memory state. -/
def commitRow : List EntityRow → Int → EntityRow → List EntityRow
  | [], _, _ => []
  | r :: rs, id_key, inst =>
      if r.id_key = id_key then inst :: rs else r :: commitRow rs id_key inst

/-- `BaseRepositoryImpl.update`: find the instance, apply the changes dict,
    commit on success; on `InstanceNotFoundError` or `ValueError` the
    session is rolled back, so the table is returned unchanged. -/
def update (allowed_columns : List String) (rows : List EntityRow)
    (id_key : Int) (changes : List (String × Option PyVal)) :
    Except String EntityRow × List EntityRow :=
  match find rows id_key with
  | .error e => (.error e, rows)
  | .ok inst =>
      match applyChanges allowed_columns inst changes with
      | .error e => (.error e, rows)
      | .ok inst' => (.ok inst', commitRow rows id_key inst')

/-- `BaseRepositoryImpl.remove`: find the row, delete it, commit; a missing
    row raises `InstanceNotFoundError` and leaves the table unchanged. -/
def remove (rows : List EntityRow) (id_key : Int) :
    Except String Unit × List EntityRow :=
  match find rows id_key with
  | .error e => (.error e, rows)
  | .ok _ => (.ok (), rows.eraseP (fun r => r.id_key = id_key))

end BaseRepositoryImpl

/-! ## Persisted rows

`models/order.py`, `models/bill.py`, `models/order_detail.py` and
`models/product.py` are not among the sources; their rows are modelled
from the spec (§3 data model) as plain records holding the values the
service hands them. `models/client.py` IS among the sources and declares
`email` UNIQUE NOT NULL and `hashed_password` NOT NULL. -/

/-- `ClientModel` (`models/client.py`): the columns the workflow touches.
    `hashed_password` is `nullable=False` in the source. -/
structure ClientRow where
  id_key : Int
  name : String
  lastname : String
  email : String
  telephone : String
  hashed_password : Option String
  deriving DecidableEq, Repr

/-- Modelled from the spec: `models/bill.py` is missing; §3 gives Bill
    identity, bill_number (unique, generated), date, total, payment_type
    (plus the discount the service writes). -/
structure BillRow where
  id_key : Int
  bill_number : String
  discount : Int
  date : String
  total : Int
  payment_type : String
  deriving DecidableEq, Repr

/-- Modelled from the spec: `models/order.py` is missing; §3 gives Order
    identity, date, total, delivery_method, status, client_id, bill_id.
    The row stores the values the service passes, unconverted. -/
structure OrderRow where
  id_key : Int
  date : String
  total : Int
  delivery_method : PyVal
  status : PyVal
  client_id : Int
  bill_id : Int
  deriving DecidableEq, Repr

/-- Modelled from the spec: `models/order_detail.py` is missing; §3 gives
    OrderDetail identity, order_id, product_id, quantity, price. -/
structure OrderDetailRow where
  id_key : Int
  quantity : Int
  price : Int
  order_id : Int
  product_id : Int
  deriving DecidableEq, Repr

/-- Modelled from the spec: `models/product.py` is missing; only identity
    and a name are needed by the claims. -/
structure ProductRow where
  id_key : Int
  name : String
  deriving DecidableEq, Repr

/-- The relational store: one list per table, plus the id generator the
    database uses for flushed INSERTs. -/
structure Db where
  clients : List ClientRow
  bills : List BillRow
  orders : List OrderRow
  order_details : List OrderDetailRow
  products : List ProductRow
  nextId : Int
  deriving DecidableEq, Repr

/-- A SQLAlchemy session: the committed database plus the uncommitted
    pending state `add`/`flush` act on. `commit` publishes pending;
    `rollback` discards it. `sent_emails` records every email the request
    handed to the SMTP collaborator (emails are not transactional). -/
structure Session where
  committed : Db
  pending : Db
  sent_emails : List String
  deriving DecidableEq, Repr

/-- Environment faults: each flag makes the corresponding database
    round-trip (`flush`/`commit`) raise, modelling driver, constraint or
    connection errors external to the embedded logic. -/
structure FaultOracle where
  client_flush_fault : Bool
  bill_flush_fault : Bool
  order_flush_fault : Bool
  commit_fault : Bool
  deriving DecidableEq, Repr

/-- Python `s.split(' ', 1)`: split at the first space only. -/
def pySplitOnce (s : String) : List String :=
  match s.splitOn " " with
  | [] => []
  | [x] => [x]
  | x :: rest => [x, String.intercalate " " rest]

namespace OrderService

/-- Step 1 of `create_order_with_client_and_bill`, email branch: look the
    client up by email; reuse it when found, otherwise split
    `client_name.strip()` at the first space and INSERT a guest
    `ClientModel` with no password. The flush issues the INSERT, where
    `models/client.py`'s NOT NULL (`hashed_password`) and UNIQUE (`email`)
    column declarations apply. -/
def resolveClientByEmail (o : FaultOracle) (order_data : OrderSchema)
    (db : Db) : Except String (Int × Db) :=
  match db.clients.find? (fun c => c.email = order_data.client_email) with
  | some existing_client => .ok (existing_client.id_key, db)
  | none =>
      let name_parts := pySplitOnce order_data.client_name.trim
      let first_name := match name_parts with | x :: _ => x | [] => ""
      let last_name := match name_parts with | _ :: y :: _ => y | _ => first_name
      let new_client : ClientRow :=
        { id_key := db.nextId, name := first_name, lastname := last_name,
          email := order_data.client_email, telephone := order_data.client_phone,
          hashed_password := none }
      if o.client_flush_fault then .error "client flush failed"
      else if new_client.hashed_password = none then
        .error "NOT NULL constraint failed: clients.hashed_password"
      else if (db.clients.find? (fun c => c.email = new_client.email)).isSome then
        .error "UNIQUE constraint failed: clients.email"
      else
        .ok (new_client.id_key,
          { db with clients := db.clients ++ [new_client], nextId := db.nextId + 1 })

/-- Step 1 of `create_order_with_client_and_bill`: `if not client_id`
    (Python truthiness: `None` and `0` fall through to the email branch). -/
def resolveClient (o : FaultOracle) (order_data : OrderSchema)
    (db : Db) : Except String (Int × Db) :=
  match order_data.client_id with
  | some cid =>
      if cid != 0 then .ok (cid, db) else resolveClientByEmail o order_data db
  | none => resolveClientByEmail o order_data db

/-- Step 2, creation branch: a timestamp-derived bill number and a new
    `BillModel` with `discount=0`, today's date, the order's total and the
    payment method, flushed to obtain its id. -/
def createBill (o : FaultOracle) (now today : String) (order_data : OrderSchema)
    (db : Db) : Except String (Int × Db) :=
  let bill_number := "BILL-" ++ now
  let new_bill : BillRow :=
    { id_key := db.nextId, bill_number := bill_number, discount := 0,
      date := today, total := order_data.total,
      payment_type := order_data.payment_method }
  if o.bill_flush_fault then .error "bill flush failed"
  else
    .ok (new_bill.id_key,
      { db with bills := db.bills ++ [new_bill], nextId := db.nextId + 1 })

/-- Step 2 of `create_order_with_client_and_bill`: `if not bill_id`. -/
def resolveBill (o : FaultOracle) (now today : String) (order_data : OrderSchema)
    (db : Db) : Except String (Int × Db) :=
  match order_data.bill_id with
  | some bid =>
      if bid != 0 then .ok (bid, db) else createBill o now today order_data db
  | none => createBill o now today order_data db

/-- Step 3 of `create_order_with_client_and_bill`: the new `OrderModel`
    gets `delivery_method = order_data.delivery_method or 3` and
    `status = 1`, then is flushed. -/
def createOrderRow (o : FaultOracle) (now : String) (order_data : OrderSchema)
    (client_id bill_id : Int) (db : Db) : Except String (OrderRow × Db) :=
  let new_order : OrderRow :=
    { id_key := db.nextId, date := now, total := order_data.total,
      delivery_method := pyOr order_data.delivery_method (.vint 3),
      status := .vint 1,
      client_id := client_id, bill_id := bill_id }
  if o.order_flush_fault then .error "order flush failed"
  else
    .ok (new_order,
      { db with orders := db.orders ++ [new_order], nextId := db.nextId + 1 })

/-- Step 4: the `OrderDetailModel` rows built by the `for item in
    order_data.items` loop, referencing the flushed order's id. -/
def mkOrderDetails (startId : Int) (order_id : Int) :
    List OrderItemSchema → List OrderDetailRow
  | [] => []
  | item :: rest =>
      { id_key := startId, quantity := item.quantity, price := item.price,
        order_id := order_id, product_id := item.product_id }
        :: mkOrderDetails (startId + 1) order_id rest

/-- Step 4 applied to the pending state (`session.add` per item; no flush,
    so no per-item failure before the final commit). -/
def addOrderDetails (order_data : OrderSchema) (new_order : OrderRow) (db : Db) : Db :=
  { db with
      order_details :=
        db.order_details ++ mkOrderDetails db.nextId new_order.id_key order_data.items,
      nextId := db.nextId + order_data.items.length }

/-- The body of the `try` block of `create_order_with_client_and_bill`,
    acting on the pending state: steps 1-4 in order, each propagating the
    first raised exception. -/
def orderBody (o : FaultOracle) (now today : String) (order_data : OrderSchema)
    (db : Db) : Except String (OrderRow × Db) :=
  match resolveClient o order_data db with
  | .error e => .error e
  | .ok (client_id, db) =>
      match resolveBill o now today order_data db with
      | .error e => .error e
      | .ok (bill_id, db) =>
          match createOrderRow o now order_data client_id bill_id db with
          | .error e => .error e
          | .ok (new_order, db) => .ok (new_order, addOrderDetails order_data new_order db)

/-- `OrderService.create_order_with_client_and_bill`: steps 1-4 inside a
    `try`, then one `commit` of everything; the `except` clause rolls the
    session back and re-raises. A failing commit also leaves the committed
    state untouched. The source contains no call to the email utility, so
    `sent_emails` is never extended. -/
def create_order_with_client_and_bill (o : FaultOracle) (now today : String)
    (order_data : OrderSchema) (s : Session) : Except String OrderRow × Session :=
  match orderBody o now today order_data s.pending with
  | .error e => (.error e, { s with pending := s.committed })
  | .ok (new_order, db') =>
      if o.commit_fault then
        (.error "commit failed", { s with pending := s.committed })
      else
        (.ok new_order, { s with committed := db', pending := db' })

end OrderService

namespace ProductService

/-- `ProductService.delete` (`services/product_service.py`): first query
    `OrderDetailModel` for any row with this `product_id` and raise
    `ValueError` if one exists; only then delegate the deletion.
    (`services/base_service_impl.py` is not among the sources; modelled
    from the spec, `super().delete` delegates to the repository's
    `remove`: find the product, delete it, commit; cache invalidation has
    no effect on the store.) -/
def delete (db : Db) (id_key : Int) : Except String Unit × Db :=
  if (db.order_details.find? (fun od => od.product_id = id_key)).isSome then
    (.error "Cannot delete product: has associated sales history", db)
  else
    match db.products.find? (fun p => p.id_key = id_key) with
    | some _ => (.ok (), { db with products := db.products.eraseP (fun p => p.id_key = id_key) })
    | none => (.error "InstanceNotFoundError", db)

end ProductService

/-! ## utils/email_utils.py -/

/-- The two SMTP credentials read from the environment (`os.getenv`
    returns `None` when unset). -/
structure EmailConfig where
  EMAIL_HOST_USER : Option String
  EMAIL_HOST_PASSWORD : Option String
  deriving DecidableEq, Repr

/-- Python truthiness of an `Optional[str]` (`None` and `""` are falsy),
    as used by `all([EMAIL_HOST_USER, EMAIL_HOST_PASSWORD])`. -/
def strTruthy (v : Option String) : Bool :=
  match v with
  | some s => s != ""
  | none => false

/-- What the SMTP server does with one delivery attempt: succeed, reject
    the login (`SMTPAuthenticationError`), or raise any other exception. -/
inductive SmtpOutcome where
  | delivered
  | authFailure (msg : String)
  | failure (msg : String)
  deriving DecidableEq, Repr

/-- The `with smtplib.SMTP(...)` block: raises unless the server delivers. -/
def smtpSessionRun (outcome : SmtpOutcome) : Except String Unit :=
  match outcome with
  | .delivered => .ok ()
  | .authFailure msg => .error msg
  | .failure msg => .error msg

/-- How one call to `send_order_confirmation_email` ends: skipped for
    missing credentials, sent, or an SMTP failure caught and logged. -/
inductive EmailResult where
  | skipped
  | sent
  | failedLogged (msg : String)
  deriving DecidableEq, Repr

/-- `send_order_confirmation_email` (`utils/email_utils.py`): returns early
    when credentials are unset; otherwise builds the message and tries the
    SMTP delivery, catching `SMTPAuthenticationError` and every other
    exception, logging them; it never re-raises. -/
def send_order_confirmation_email (cfg : EmailConfig)
    (_client_email _client_name : String) (_order_id : Int) (_total : Int)
    (_order_details : List OrderDetailRow) (outcome : SmtpOutcome) : EmailResult :=
  if ¬ (strTruthy cfg.EMAIL_HOST_USER ∧ strTruthy cfg.EMAIL_HOST_PASSWORD) then
    .skipped
  else
    match smtpSessionRun outcome with
    | .ok _ => .sent
    | .error msg => .failedLogged msg

/-! ## Concrete fixtures (used by witnesses and counterexamples) -/

/-- No environment faults: every flush and the commit succeed. -/
def noFaults : FaultOracle :=
  { client_flush_fault := false, bill_flush_fault := false,
    order_flush_fault := false, commit_fault := false }

/-- An already-registered client (id 5). -/
def client5 : ClientRow :=
  { id_key := 5, name := "Ana", lastname := "Gomez", email := "ana@example.com",
    telephone := "111", hashed_password := some "hash" }

/-- An already-existing bill (id 7). -/
def bill7 : BillRow :=
  { id_key := 7, bill_number := "BILL-20250101", discount := 0,
    date := "2025-01-01", total := 3480000, payment_type := "card" }

/-- Initial committed database for the workflow runs. -/
def db0 : Db :=
  { clients := [client5], bills := [bill7], orders := [], order_details := [],
    products := [], nextId := 100 }

/-- A fresh session over `db0`. -/
def sess0 : Session := { committed := db0, pending := db0, sent_emails := [] }

/-- The spec's worked example payload, reusing client 5 and bill 7 and
    asking for `delivery_method = 1`. -/
def sampleData : OrderSchema :=
  { client_name := "Juan Perez", client_email := "juan@example.com",
    client_phone := "2612077095", shipping_address := "Calle Falsa 123",
    payment_method := "card", delivery_method := some (.vint 1),
    client_id := some 5, bill_id := some 7,
    items := [{ product_id := 1, quantity := 2, price := 1500000 }],
    subtotal := 3000000, tax := 480000, shipping_cost := 0,
    total := 3480000, status := "pending" }

/-- The same payload as a guest order: no `client_id`, an email not in
    `db0`. -/
def guestData : OrderSchema :=
  { sampleData with
    client_id := none
    client_email := "guest@example.com"
    client_name := "Juan Carlos Perez" }

/-- The order row the successful `sampleData` run produces. -/
def ord0 : OrderRow :=
  { id_key := 100, date := "20250106120000", total := 3480000,
    delivery_method := .vint 1, status := .vint 1, client_id := 5, bill_id := 7 }

/-- The line-item row of that run. -/
def detail0 : OrderDetailRow :=
  { id_key := 101, quantity := 2, price := 1500000, order_id := 100, product_id := 1 }

/-- The committed database after the successful `sampleData` run. -/
def db1 : Db :=
  { clients := [client5], bills := [bill7], orders := [ord0],
    order_details := [detail0], products := [], nextId := 102 }

/-- The session after that run. -/
def sess1 : Session := { committed := db1, pending := db1, sent_emails := [] }

/-- A one-row entity table for the repository claims. -/
def rowName : EntityRow := { id_key := 1, fields := [("name", some (.vstr "x"))] }

/-- A changes dict made only of skipped keys: a `None` value, an
    underscore name, and the protected `id_key`. -/
def skippedChanges : List (String × Option PyVal) :=
  [("name", none), ("_private", some (.vint 1)), ("id_key", some (.vint 9))]

/-- A product with a sale recorded against it. -/
def prod9 : ProductRow := { id_key := 9, name := "Mesa" }

/-- Database where product 9 has one referencing order detail. -/
def dbSales : Db :=
  { clients := [], bills := [], orders := [],
    order_details := [{ id_key := 1, quantity := 1, price := 10, order_id := 1, product_id := 9 }],
    products := [prod9], nextId := 50 }

/-- Database where product 9 has no referencing order detail. -/
def dbNoSales : Db := { dbSales with order_details := [] }

/-! # Theorems -/

/-- `find` succeeds exactly on a member row carrying the requested id. -/
theorem find_ok (rows : List EntityRow) (id_key : Int) (r : EntityRow)
    (h : BaseRepositoryImpl.find rows id_key = .ok r) :
    r.id_key = id_key ∧ r ∈ rows := by
  unfold BaseRepositoryImpl.find at h
  cases hf : rows.find? (fun x => x.id_key = id_key) with
  | none => rw [hf] at h; cases h
  | some x =>
      rw [hf] at h
      cases h
      refine ⟨?_, List.mem_of_find?_eq_some hf⟩
      have := List.find?_some hf
      simpa using this

/-- Replacing the found row by itself leaves the table unchanged. -/
theorem commitRow_self (rows : List EntityRow) (id_key : Int) (inst : EntityRow)
    (h : BaseRepositoryImpl.find rows id_key = .ok inst) :
    BaseRepositoryImpl.commitRow rows id_key inst = rows := by
  induction rows with
  | nil => simp [BaseRepositoryImpl.find] at h
  | cons r rs ih =>
      by_cases hr : r.id_key = id_key
      · have : inst = r := by
          simp [BaseRepositoryImpl.find, List.find?_cons_of_pos, hr] at h
          exact h.symm
        simp [BaseRepositoryImpl.commitRow, hr, this]
      · have hstep : BaseRepositoryImpl.find (r :: rs) id_key = BaseRepositoryImpl.find rs id_key := by
          simp [BaseRepositoryImpl.find, List.find?_cons_of_neg, hr]
        rw [hstep] at h
        simp [BaseRepositoryImpl.commitRow, hr, ih h]

/-- A changes dict made only of skipped keys is a no-op on the instance. -/
theorem applyChanges_skip_all (allowed : List String) (inst : EntityRow)
    (changes : List (String × Option PyVal))
    (h : ∀ kv ∈ changes, kv.2 = none ∨ startsWithUnderscore kv.1 = true ∨
        kv.1 ∈ BaseRepositoryImpl.PROTECTED_ATTRIBUTES) :
    BaseRepositoryImpl.applyChanges allowed inst changes = .ok inst := by
  induction changes with
  | nil => rfl
  | cons kv rest ih =>
      obtain ⟨key, value⟩ := kv
      have hcond := h (key, value) (by simp)
      simp only [BaseRepositoryImpl.applyChanges]
      rw [if_pos (by simpa using hcond)]
      exact ih (fun kv hm => h kv (List.mem_cons_of_mem _ hm))

/-- `setAttr` under a non-`id_key` name keeps the primary key. -/
theorem setAttr_id_key (r : EntityRow) (k : String) (v : PyVal) (h : k ≠ "id_key") :
    (r.setAttr k v).id_key = r.id_key := by
  simp [EntityRow.setAttr, h]

/-- `applyChanges` never changes the primary key of the instance. -/
theorem applyChanges_id_key (allowed : List String) (inst r : EntityRow)
    (changes : List (String × Option PyVal))
    (h : BaseRepositoryImpl.applyChanges allowed inst changes = .ok r) :
    r.id_key = inst.id_key := by
  induction changes generalizing inst with
  | nil =>
      simp only [BaseRepositoryImpl.applyChanges, Except.ok.injEq] at h
      rw [h]
  | cons kv rest ih =>
      obtain ⟨key, value⟩ := kv
      simp only [BaseRepositoryImpl.applyChanges] at h
      split at h
      · exact ih inst h
      · rename_i hskip
        split at h
        · cases h
        · cases value with
          | none => exact ih inst h
          | some v =>
              have hkid : key ≠ "id_key" := by
                intro hk
                exact hskip (Or.inr (Or.inr (by simp [hk, BaseRepositoryImpl.PROTECTED_ATTRIBUTES])))
              rw [ih (inst.setAttr key v) h, setAttr_id_key inst key v hkid]

/-- `setField` writes only non-NULL values. -/
theorem lookupField_setField_null (fs : List (String × Option PyVal)) (k k' : String) (v : PyVal)
    (h : lookupField (setField fs k v) k' = some none) :
    lookupField fs k' = some none := by
  induction fs with
  | nil => simp [setField, lookupField] at h
  | cons a rest ih =>
      obtain ⟨ka, va⟩ := a
      by_cases hak : ka = k
      · rw [setField, if_pos hak] at h
        rw [lookupField] at h ⊢
        split at h
        · cases h
        · rw [if_neg (by assumption)]
          exact h
      · rw [setField, if_neg hak] at h
        rw [lookupField] at h ⊢
        split at h
        · rename_i hk'
          rw [if_pos hk']
          exact h
        · rename_i hk'
          rw [if_neg hk']
          exact ih h

/-- `setAttr` writes only non-NULL values. -/
theorem setAttr_getField_null (r : EntityRow) (k k' : String) (v : PyVal)
    (h : (r.setAttr k v).getField k' = some none) : r.getField k' = some none := by
  unfold EntityRow.setAttr at h
  split at h
  · split at h <;> exact h
  · exact lookupField_setField_null _ _ _ _ h

/-- `applyChanges` never sets a column to NULL. -/
theorem applyChanges_no_null (allowed : List String) (inst r : EntityRow)
    (changes : List (String × Option PyVal)) (k : String)
    (h : BaseRepositoryImpl.applyChanges allowed inst changes = .ok r)
    (hr : r.getField k = some none) :
    inst.getField k = some none := by
  induction changes generalizing inst with
  | nil =>
      simp only [BaseRepositoryImpl.applyChanges] at h
      cases h
      exact hr
  | cons kv rest ih =>
      obtain ⟨key, value⟩ := kv
      simp only [BaseRepositoryImpl.applyChanges] at h
      split at h
      · exact ih inst h
      · split at h
        · cases h
        · cases value with
          | none => exact ih inst h
          | some v => exact setAttr_getField_null inst key k v (ih (inst.setAttr key v) h)

/-- A usable unknown field name makes `applyChanges` raise `ValueError`. -/
theorem applyChanges_unknown (allowed : List String) (inst : EntityRow)
    (changes : List (String × Option PyVal)) (k : String) (v : PyVal)
    (hmem : (k, some v) ∈ changes) (hus : startsWithUnderscore k = false)
    (hid : k ≠ "id_key") (hcol : k ∉ allowed) :
    BaseRepositoryImpl.applyChanges allowed inst changes = .error "Invalid field" := by
  induction changes generalizing inst with
  | nil => cases hmem
  | cons kv rest ih =>
      obtain ⟨key, value⟩ := kv
      rcases List.mem_cons.mp hmem with heq | hmem'
      · have hk : k = key := congrArg Prod.fst heq
        have hv : (some v : Option PyVal) = value := congrArg Prod.snd heq
        subst hk
        subst hv
        have hns : ¬((some v : Option PyVal) = none ∨ startsWithUnderscore k ∨
            k ∈ BaseRepositoryImpl.PROTECTED_ATTRIBUTES) := by
          intro hskip
          rcases hskip with h1 | h2 | h3
          · cases h1
          · rw [hus] at h2; exact Bool.noConfusion h2
          · rcases (by simpa [BaseRepositoryImpl.PROTECTED_ATTRIBUTES] using h3 :
                k = "id_key" ∨ k = "_sa_instance_state") with h4 | h4
            · exact hid h4
            · rw [h4] at hus; exact absurd hus (by decide)
        simp only [BaseRepositoryImpl.applyChanges]
        rw [if_neg hns, if_pos hcol]
      · simp only [BaseRepositoryImpl.applyChanges]
        split
        · exact ih inst hmem'
        · split
          · rfl
          · cases value with
            | none => exact ih inst hmem'
            | some v' => exact ih (inst.setAttr key v') hmem'

/-- C8 counterexample: the claim says any changes dict containing a field
name that is not a column is rejected; the dict with the single unknown
field name "bogus" (valued `None`) is instead silently accepted: `update`
returns the row unchanged with no error. -/
theorem update_unknown_none_not_rejected :
    BaseRepositoryImpl.update ["name"] [rowName] 1 [("bogus", none)] =
      (.ok rowName, [rowName]) := by rfl

/-- C8 (amended): for an existing entity, a changes dict containing an
unknown field name whose value is not `None`, whose name does not start
with an underscore and is not the protected `id_key`, makes `update`
raise `ValueError`; the table is returned unchanged, so none of the other
fields of the same dict is applied. -/
theorem update_rejects_unknown_field (allowed : List String) (rows : List EntityRow)
    (id_key : Int) (changes : List (String × Option PyVal)) (inst : EntityRow)
    (k : String) (v : PyVal)
    (hfound : BaseRepositoryImpl.find rows id_key = .ok inst)
    (hmem : (k, some v) ∈ changes)
    (hus : startsWithUnderscore k = false)
    (hid : k ≠ "id_key")
    (hcol : k ∉ allowed) :
    BaseRepositoryImpl.update allowed rows id_key changes =
      (.error "Invalid field", rows) := by
  simp [BaseRepositoryImpl.update, hfound,
    applyChanges_unknown allowed inst changes k v hmem hus hid hcol]

/-- Witness for the amended C8 theorem at a concrete input. -/
theorem update_rejects_unknown_field_witness :
    BaseRepositoryImpl.update ["name"] [rowName] 1 [("name", some (.vstr "y")), ("bogus", some (.vint 1))] =
      (.error "Invalid field", [rowName]) :=
  update_rejects_unknown_field ["name"] [rowName] 1
    [("name", some (.vstr "y")), ("bogus", some (.vint 1))] rowName "bogus" (.vint 1)
    (by rfl) (by decide) (by decide) (by decide) (by decide)

/-- C10: keys valued `None`, keys starting with an underscore and the
protected attributes are silently skipped by `update`: a changes dict made
only of such keys leaves the entity and the table unchanged, a successful
update never alters the row's `id_key`, and no column is ever set to NULL
that was not NULL before. -/
theorem update_skips_none_underscore_protected (allowed : List String)
    (rows : List EntityRow) (id_key : Int) (changes : List (String × Option PyVal)) :
    ((∀ kv ∈ changes, kv.2 = none ∨ startsWithUnderscore kv.1 = true ∨
        kv.1 ∈ BaseRepositoryImpl.PROTECTED_ATTRIBUTES) →
      ∀ inst, BaseRepositoryImpl.find rows id_key = .ok inst →
        BaseRepositoryImpl.update allowed rows id_key changes = (.ok inst, rows)) ∧
    (∀ r db', BaseRepositoryImpl.update allowed rows id_key changes = (.ok r, db') →
        r.id_key = id_key) ∧
    (∀ r db' k, BaseRepositoryImpl.update allowed rows id_key changes = (.ok r, db') →
        r.getField k = some none →
        ∃ inst, BaseRepositoryImpl.find rows id_key = .ok inst ∧
          inst.getField k = some none) := by
  refine ⟨?_, ?_, ?_⟩
  · intro hall inst hfound
    simp [BaseRepositoryImpl.update, hfound, applyChanges_skip_all allowed inst changes hall,
      commitRow_self rows id_key inst hfound]
  · intro r db' h
    cases hfound : BaseRepositoryImpl.find rows id_key with
    | error e => simp [BaseRepositoryImpl.update, hfound] at h
    | ok inst =>
        cases happ : BaseRepositoryImpl.applyChanges allowed inst changes with
        | error e => simp [BaseRepositoryImpl.update, hfound, happ] at h
        | ok r' =>
            simp only [BaseRepositoryImpl.update, hfound, happ, Prod.mk.injEq,
              Except.ok.injEq] at h
            obtain ⟨h1, h2⟩ := h
            cases h1
            exact (applyChanges_id_key allowed inst r changes happ).trans
              (find_ok rows id_key inst hfound).1
  · intro r db' k h hr
    cases hfound : BaseRepositoryImpl.find rows id_key with
    | error e => simp [BaseRepositoryImpl.update, hfound] at h
    | ok inst =>
        cases happ : BaseRepositoryImpl.applyChanges allowed inst changes with
        | error e => simp [BaseRepositoryImpl.update, hfound, happ] at h
        | ok r' =>
            simp only [BaseRepositoryImpl.update, hfound, happ, Prod.mk.injEq,
              Except.ok.injEq] at h
            obtain ⟨h1, h2⟩ := h
            cases h1
            exact ⟨inst, rfl, applyChanges_no_null allowed inst r changes k happ hr⟩

/-- Witness for C10 at a concrete input: a dict of one `None`-valued key,
one underscore key and the protected `id_key` leaves everything unchanged. -/
theorem update_skips_none_underscore_protected_witness :
    BaseRepositoryImpl.update ["name"] [rowName] 1 skippedChanges = (.ok rowName, [rowName]) :=
  (update_skips_none_underscore_protected ["name"] [rowName] 1 skippedChanges).1
    (by decide) rowName (by rfl)

/-- C7: `find_all` raises `ValueError` (returning no rows) when `skip` is
negative, and a `limit` above the configured maximum produces exactly the
page the configured maximum produces. -/
theorem find_all_validates_skip_and_clamps_limit {α : Type}
    (cfg : BaseRepositoryImpl.PaginationConfig) (rows : List α) (skip limit : Int) :
    (skip < 0 → ∃ e, BaseRepositoryImpl.find_all cfg rows skip limit = .error e) ∧
    (0 ≤ skip → cfg.MIN_LIMIT ≤ cfg.MAX_LIMIT → cfg.MAX_LIMIT < limit →
      BaseRepositoryImpl.find_all cfg rows skip limit =
        BaseRepositoryImpl.find_all cfg rows skip cfg.MAX_LIMIT) := by
  constructor
  · intro h
    exact ⟨"skip parameter must be >= 0", by simp [BaseRepositoryImpl.find_all, h]⟩
  · intro h0 hmm hlt
    have h1 : ¬ skip < 0 := not_lt.mpr h0
    have h2 : ¬ limit < cfg.MIN_LIMIT := not_lt.mpr (le_trans hmm (le_of_lt hlt))
    have h3 : ¬ cfg.MAX_LIMIT < cfg.MIN_LIMIT := not_lt.mpr hmm
    simp [BaseRepositoryImpl.find_all, h1, h2, h3, hlt, lt_irrefl]

/-- Witness for C7 at concrete inputs. -/
theorem find_all_validates_skip_and_clamps_limit_witness :
    ((-1 : Int) < 0 ∧
      ∃ e, BaseRepositoryImpl.find_all ⟨1, 2⟩ ([10, 20, 30] : List Int) (-1) 1 = .error e) ∧
    (BaseRepositoryImpl.find_all ⟨1, 2⟩ ([10, 20, 30] : List Int) 0 5 =
      BaseRepositoryImpl.find_all ⟨1, 2⟩ ([10, 20, 30] : List Int) 0 2) :=
  ⟨⟨by decide, (find_all_validates_skip_and_clamps_limit ⟨1, 2⟩ [10, 20, 30] (-1) 1).1 (by decide)⟩,
    (find_all_validates_skip_and_clamps_limit ⟨1, 2⟩ [10, 20, 30] 0 5).2
      (by decide) (by decide) (by decide)⟩

/-- Removing the first row with a given id removes every row with that id
    when ids are pairwise distinct. -/
theorem eraseP_unique_id (ps : List ProductRow) (id_key : Int)
    (hp : ps.Pairwise (fun a b => a.id_key ≠ b.id_key)) :
    ∀ p ∈ ps.eraseP (fun r => r.id_key = id_key), p.id_key ≠ id_key := by
  induction ps with
  | nil => simp
  | cons q qs ih =>
      by_cases hq : q.id_key = id_key
      · intro p hm
        rw [List.eraseP_cons_of_pos (by simpa using hq)] at hm
        have hne := (List.pairwise_cons.mp hp).1 p hm
        intro hc
        exact hne (by rw [hq, hc])
      · intro p hm
        rw [List.eraseP_cons_of_neg (by simpa using hq)] at hm
        rcases List.mem_cons.mp hm with rfl | hm'
        · exact hq
        · exact ih (List.pairwise_cons.mp hp).2 p hm'

/-- C9: deleting a product that has at least one referencing OrderDetail
row is rejected with `ValueError` before any deletion is attempted and the
product table is unchanged; deleting a product with no referencing
OrderDetail (ids being unique) succeeds and removes the product row. -/
theorem product_delete_sales_guard (db : Db) (id_key : Int) :
    ((∃ od ∈ db.order_details, od.product_id = id_key) →
      (∃ e, (ProductService.delete db id_key).1 = .error e) ∧
      (ProductService.delete db id_key).2 = db) ∧
    ((∀ od ∈ db.order_details, od.product_id ≠ id_key) →
     (∃ p ∈ db.products, p.id_key = id_key) →
     db.products.Pairwise (fun a b => a.id_key ≠ b.id_key) →
      (ProductService.delete db id_key).1 = .ok () ∧
      ∀ p ∈ (ProductService.delete db id_key).2.products, p.id_key ≠ id_key) := by
  constructor
  · intro hsale
    have hsome : (db.order_details.find? (fun od => od.product_id = id_key)).isSome := by
      rw [List.find?_isSome]
      obtain ⟨od, hm, hpid⟩ := hsale
      exact ⟨od, hm, by simpa using hpid⟩
    refine ⟨⟨"Cannot delete product: has associated sales history", ?_⟩, ?_⟩ <;>
      simp [ProductService.delete, hsome]
  · intro hnone hex hp
    have hno : db.order_details.find? (fun od => od.product_id = id_key) = none := by
      rw [List.find?_eq_none]
      intro od hm
      simpa using hnone od hm
    have hfind : (db.products.find? (fun p => p.id_key = id_key)).isSome := by
      rw [List.find?_isSome]
      obtain ⟨p, hm, hid⟩ := hex
      exact ⟨p, hm, by simpa using hid⟩
    obtain ⟨q, hq⟩ := Option.isSome_iff_exists.mp hfind
    constructor
    · simp [ProductService.delete, hno, hq]
    · intro p hm
      refine eraseP_unique_id db.products id_key hp p ?_
      simpa [ProductService.delete, hno, hq] using hm

/-- Witness for C9: product 9 with a sale is kept; without sales it is
deleted. -/
theorem product_delete_sales_guard_witness :
    (((∃ e, (ProductService.delete dbSales 9).1 = .error e) ∧
        (ProductService.delete dbSales 9).2 = dbSales) ∧
      ((ProductService.delete dbNoSales 9).1 = .ok () ∧
        ∀ p ∈ (ProductService.delete dbNoSales 9).2.products, p.id_key ≠ 9)) :=
  ⟨(product_delete_sales_guard dbSales 9).1
      ⟨{ id_key := 1, quantity := 1, price := 10, order_id := 1, product_id := 9 },
        by decide, by decide⟩,
    (product_delete_sales_guard dbNoSales 9).2 (by decide)
      ⟨prod9, by decide, by decide⟩ (by decide)⟩

/-- A successful email-branch client resolution reuses an existing client
    row and does not change the database: the guest INSERT can never
    succeed, because the new row carries no `hashed_password` and the
    column is NOT NULL. -/
theorem resolveClientByEmail_spec (o : FaultOracle) (d : OrderSchema) (db : Db)
    (cid : Int) (db' : Db)
    (h : OrderService.resolveClientByEmail o d db = .ok (cid, db')) :
    db' = db ∧ ∃ c ∈ db.clients, c.email = d.client_email ∧ c.id_key = cid := by
  simp only [OrderService.resolveClientByEmail] at h
  split at h
  · rename_i c hc
    simp only [Except.ok.injEq, Prod.mk.injEq] at h
    obtain ⟨h1, h2⟩ := h
    refine ⟨h2.symm, c, List.mem_of_find?_eq_some hc, ?_, h1⟩
    simpa using List.find?_some hc
  · split at h
    · cases h
    · simp at h

/-- A successful client resolution leaves the database unchanged. -/
theorem resolveClient_spec (o : FaultOracle) (d : OrderSchema) (db : Db)
    (cid : Int) (db' : Db)
    (h : OrderService.resolveClient o d db = .ok (cid, db')) :
    db' = db := by
  unfold OrderService.resolveClient at h
  split at h
  · split at h
    · simp only [Except.ok.injEq, Prod.mk.injEq] at h
      exact h.2.symm
    · exact (resolveClientByEmail_spec o d db cid db' h).1
  · exact (resolveClientByEmail_spec o d db cid db' h).1

/-- A truthy `client_id` short-circuits client resolution. -/
theorem resolveClient_given (o : FaultOracle) (d : OrderSchema) (db : Db) (c : Int)
    (hc : d.client_id = some c) (hc0 : c ≠ 0) :
    OrderService.resolveClient o d db = .ok (c, db) := by
  unfold OrderService.resolveClient
  rw [hc]
  simp [hc0]

/-- Frame of a successful bill creation: only the bill table (and the id
    generator) changes, by one row carrying the returned id. -/
theorem createBill_spec (o : FaultOracle) (now today : String) (d : OrderSchema)
    (db : Db) (bid : Int) (db' : Db)
    (h : OrderService.createBill o now today d db = .ok (bid, db')) :
    db'.clients = db.clients ∧ db'.orders = db.orders ∧
    db'.order_details = db.order_details ∧ db'.products = db.products ∧
    ∃ b, db'.bills = db.bills ++ [b] ∧ b.id_key = bid := by
  simp only [OrderService.createBill] at h
  split at h
  · cases h
  · simp only [Except.ok.injEq, Prod.mk.injEq] at h
    obtain ⟨h1, h2⟩ := h
    subst h2
    exact ⟨rfl, rfl, rfl, rfl, _, rfl, h1⟩

/-- Frame of a successful bill resolution. -/
theorem resolveBill_spec (o : FaultOracle) (now today : String) (d : OrderSchema)
    (db : Db) (bid : Int) (db' : Db)
    (h : OrderService.resolveBill o now today d db = .ok (bid, db')) :
    db'.clients = db.clients ∧ db'.orders = db.orders ∧
    db'.order_details = db.order_details ∧ db'.products = db.products ∧
    (db'.bills = db.bills ∨ ∃ b, db'.bills = db.bills ++ [b] ∧ b.id_key = bid) := by
  unfold OrderService.resolveBill at h
  split at h
  · split at h
    · simp only [Except.ok.injEq, Prod.mk.injEq] at h
      obtain ⟨h1, h2⟩ := h
      subst h2
      exact ⟨rfl, rfl, rfl, rfl, Or.inl rfl⟩
    · obtain ⟨a1, a2, a3, a4, b, hb⟩ := createBill_spec o now today d db bid db' h
      exact ⟨a1, a2, a3, a4, Or.inr ⟨b, hb⟩⟩
  · obtain ⟨a1, a2, a3, a4, b, hb⟩ := createBill_spec o now today d db bid db' h
    exact ⟨a1, a2, a3, a4, Or.inr ⟨b, hb⟩⟩

/-- A truthy `bill_id` short-circuits bill resolution. -/
theorem resolveBill_given (o : FaultOracle) (now today : String) (d : OrderSchema)
    (db : Db) (b : Int) (hb : d.bill_id = some b) (hb0 : b ≠ 0) :
    OrderService.resolveBill o now today d db = .ok (b, db) := by
  unfold OrderService.resolveBill
  rw [hb]
  simp [hb0]

/-- A successful order flush appends exactly the built order row. -/
theorem createOrderRow_spec (o : FaultOracle) (now : String) (d : OrderSchema)
    (cid bid : Int) (db : Db) (ord : OrderRow) (db' : Db)
    (h : OrderService.createOrderRow o now d cid bid db = .ok (ord, db')) :
    ord.date = now ∧ ord.total = d.total ∧
    ord.delivery_method = pyOr d.delivery_method (.vint 3) ∧
    ord.status = .vint 1 ∧ ord.client_id = cid ∧ ord.bill_id = bid ∧
    db'.clients = db.clients ∧ db'.bills = db.bills ∧
    db'.order_details = db.order_details ∧ db'.products = db.products ∧
    db'.orders = db.orders ++ [ord] := by
  simp only [OrderService.createOrderRow] at h
  split at h
  · cases h
  · simp only [Except.ok.injEq, Prod.mk.injEq] at h
    obtain ⟨h1, h2⟩ := h
    subst h1
    subst h2
    exact ⟨rfl, rfl, rfl, rfl, rfl, rfl, rfl, rfl, rfl, rfl, rfl⟩

/-- What a successful run of steps 1-4 does to the pending state. -/
theorem orderBody_spec (o : FaultOracle) (now today : String) (d : OrderSchema)
    (db : Db) (ord : OrderRow) (db' : Db)
    (h : OrderService.orderBody o now today d db = .ok (ord, db')) :
    (db'.clients = db.clients ∨
      ∃ c, db'.clients = db.clients ++ [c] ∧ c.id_key = ord.client_id) ∧
    (db'.bills = db.bills ∨
      ∃ b, db'.bills = db.bills ++ [b] ∧ b.id_key = ord.bill_id) ∧
    db'.orders = db.orders ++ [ord] ∧
    (∃ n, db'.order_details = db.order_details ++
      OrderService.mkOrderDetails n ord.id_key d.items) ∧
    db'.products = db.products ∧
    ord.delivery_method = pyOr d.delivery_method (.vint 3) ∧
    ord.status = .vint 1 ∧ ord.date = now ∧ ord.total = d.total := by
  cases hc : OrderService.resolveClient o d db with
  | error e => simp [OrderService.orderBody, hc] at h
  | ok pc =>
      obtain ⟨cid, db1⟩ := pc
      have hdb1 : db1 = db := resolveClient_spec o d db cid db1 hc
      subst hdb1
      simp only [OrderService.orderBody, hc] at h
      cases hb : OrderService.resolveBill o now today d db1 with
      | error e => simp [hb] at h
      | ok pb =>
          obtain ⟨bid, db2⟩ := pb
          simp only [hb] at h
          obtain ⟨b1, b2, b3, b4, b5⟩ := resolveBill_spec o now today d db1 bid db2 hb
          cases ho : OrderService.createOrderRow o now d cid bid db2 with
          | error e => simp [ho] at h
          | ok po =>
              obtain ⟨ord1, db3⟩ := po
              simp only [ho] at h
              obtain ⟨c1, c2, c3, c4, c5, c6, c7, c8, c9, c10, c11⟩ :=
                createOrderRow_spec o now d cid bid db2 ord1 db3 ho
              simp only [Except.ok.injEq, Prod.mk.injEq] at h
              obtain ⟨h1, h2⟩ := h
              subst h1
              subst h2
              refine ⟨?_, ?_, ?_, ?_, ?_, c3, c4, c1, c2⟩
              · rw [show (OrderService.addOrderDetails d ord1 db3).clients = db3.clients from rfl,
                  c7, b1]
                exact Or.inl rfl
              · rw [show (OrderService.addOrderDetails d ord1 db3).bills = db3.bills from rfl, c8]
                rcases b5 with hsame | ⟨b, hb1, hb2⟩
                · exact Or.inl hsame
                · exact Or.inr ⟨b, hb1, by rw [hb2, c6]⟩
              · rw [show (OrderService.addOrderDetails d ord1 db3).orders = db3.orders from rfl,
                  c11, b2]
              · exact ⟨db3.nextId, by rw [show (OrderService.addOrderDetails d ord1 db3).order_details = db3.order_details ++ OrderService.mkOrderDetails db3.nextId ord1.id_key d.items from rfl, c9, b3]⟩
              · rw [show (OrderService.addOrderDetails d ord1 db3).products = db3.products from rfl,
                  c10, b4]

/-- Every failing run ends in a rolled-back session. -/
theorem create_order_error_spec (o : FaultOracle) (now today : String)
    (d : OrderSchema) (s : Session) (e : String) (s' : Session)
    (hrun : OrderService.create_order_with_client_and_bill o now today d s = (.error e, s')) :
    s' = { s with pending := s.committed } := by
  unfold OrderService.create_order_with_client_and_bill at hrun
  cases hbody : OrderService.orderBody o now today d s.pending with
  | error e0 =>
      rw [hbody] at hrun
      simp only [Prod.mk.injEq] at hrun
      exact hrun.2.symm
  | ok p =>
      obtain ⟨ord1, db'⟩ := p
      rw [hbody] at hrun
      cases hcf : o.commit_fault with
      | true =>
          rw [hcf] at hrun
          simp only [if_true, Prod.mk.injEq] at hrun
          exact hrun.2.symm
      | false =>
          rw [hcf] at hrun
          simp at hrun

/-- Every successful run committed exactly the pending state steps 1-4
    built, with no commit fault. -/
theorem create_order_ok_spec (o : FaultOracle) (now today : String)
    (d : OrderSchema) (s : Session) (ord : OrderRow) (s' : Session)
    (hrun : OrderService.create_order_with_client_and_bill o now today d s = (.ok ord, s')) :
    ∃ db', OrderService.orderBody o now today d s.pending = .ok (ord, db') ∧
      s' = { s with committed := db', pending := db' } ∧ o.commit_fault = false := by
  unfold OrderService.create_order_with_client_and_bill at hrun
  cases hbody : OrderService.orderBody o now today d s.pending with
  | error e0 => rw [hbody] at hrun; simp at hrun
  | ok p =>
      obtain ⟨ord1, db'⟩ := p
      rw [hbody] at hrun
      cases hcf : o.commit_fault with
      | true => rw [hcf] at hrun; simp at hrun
      | false =>
          rw [hcf] at hrun
          simp only [if_false, Prod.mk.injEq, Except.ok.injEq, Bool.false_eq_true] at hrun
          obtain ⟨h1, h2⟩ := hrun
          subst h1
          exact ⟨db', rfl, h2.symm, rfl⟩

/-- C1: over a fresh session, the order-creation workflow is atomic: any
exception raised during client resolution, bill resolution, order creation,
line-item creation or the commit propagates as an error, the session is
rolled back, and the committed store is exactly what it was; on success the
committed store gains the order, its line items, and the (created or
reused) client and bill rows together in the one commit. -/
theorem create_order_atomic (o : FaultOracle) (now today : String)
    (order_data : OrderSchema) (s : Session) (h : s.pending = s.committed) :
    (∀ e s', OrderService.create_order_with_client_and_bill o now today order_data s =
        (.error e, s') → s'.committed = s.committed ∧ s'.pending = s.committed) ∧
    (∀ ord s', OrderService.create_order_with_client_and_bill o now today order_data s =
        (.ok ord, s') →
      s'.pending = s'.committed ∧
      (s'.committed.clients = s.committed.clients ∨
        ∃ c, s'.committed.clients = s.committed.clients ++ [c] ∧ c.id_key = ord.client_id) ∧
      (s'.committed.bills = s.committed.bills ∨
        ∃ b, s'.committed.bills = s.committed.bills ++ [b] ∧ b.id_key = ord.bill_id) ∧
      s'.committed.orders = s.committed.orders ++ [ord] ∧
      ∃ n, s'.committed.order_details = s.committed.order_details ++
        OrderService.mkOrderDetails n ord.id_key order_data.items) := by
  constructor
  · intro e s' hrun
    rw [create_order_error_spec o now today order_data s e s' hrun]
    exact ⟨rfl, rfl⟩
  · intro ord s' hrun
    obtain ⟨db', hbody, hs', hcf⟩ := create_order_ok_spec o now today order_data s ord s' hrun
    obtain ⟨p1, p2, p3, p4, p5, p6, p7, p8, p9⟩ :=
      orderBody_spec o now today order_data s.pending ord db' hbody
    subst hs'
    rw [h] at p1 p2 p3 p4
    exact ⟨rfl, p1, p2, p3, p4⟩

/-- Witness for C1: the concrete successful run starts from a fresh
session and commits the new order together with its line item. -/
theorem create_order_atomic_witness :
    sess0.pending = sess0.committed ∧
    sess1.pending = sess1.committed ∧
    sess1.committed.orders = sess0.committed.orders ++ [ord0] := by
  have hrun : OrderService.create_order_with_client_and_bill noFaults "20250106120000"
      "2025-01-06" sampleData sess0 = (.ok ord0, sess1) := by rfl
  have hmain := (create_order_atomic noFaults "20250106120000" "2025-01-06" sampleData
    sess0 rfl).2 ord0 sess1 hrun
  exact ⟨rfl, hmain.1, hmain.2.2.2.1⟩

/-- C4: an order input carrying truthy existing `client_id` and `bill_id`
creates no Client row and no Bill row — the two tables are unchanged
whatever the outcome — and a successfully created order references exactly
the supplied ids. -/
theorem create_order_reuses_existing_ids (o : FaultOracle) (now today : String)
    (order_data : OrderSchema) (s : Session) (c b : Int)
    (h : s.pending = s.committed)
    (hc : order_data.client_id = some c) (hc0 : c ≠ 0)
    (hcx : ∃ cl ∈ s.committed.clients, cl.id_key = c)
    (hb : order_data.bill_id = some b) (hb0 : b ≠ 0)
    (hbx : ∃ bl ∈ s.committed.bills, bl.id_key = b) :
    (OrderService.create_order_with_client_and_bill o now today order_data s).2.committed.clients
      = s.committed.clients ∧
    (OrderService.create_order_with_client_and_bill o now today order_data s).2.committed.bills
      = s.committed.bills ∧
    ∀ ord s', OrderService.create_order_with_client_and_bill o now today order_data s =
      (.ok ord, s') → ord.client_id = c ∧ ord.bill_id = b := by
  have hbody : OrderService.orderBody o now today order_data s.pending =
      match OrderService.createOrderRow o now order_data c b s.pending with
      | .error e => .error e
      | .ok (new_order, db) =>
          .ok (new_order, OrderService.addOrderDetails order_data new_order db) := by
    simp only [OrderService.orderBody, resolveClient_given o order_data s.pending c hc hc0,
      resolveBill_given o now today order_data s.pending b hb hb0]
  have hkey : ∀ ord db', OrderService.orderBody o now today order_data s.pending =
      .ok (ord, db') →
      ord.client_id = c ∧ ord.bill_id = b ∧
      db'.clients = s.pending.clients ∧ db'.bills = s.pending.bills := by
    intro ord db' hbo
    rw [hbody] at hbo
    cases hoc : OrderService.createOrderRow o now order_data c b s.pending with
    | error e => rw [hoc] at hbo; cases hbo
    | ok po =>
        obtain ⟨no, db2⟩ := po
        simp only [hoc, Except.ok.injEq, Prod.mk.injEq] at hbo
        obtain ⟨e1, e2⟩ := hbo
        subst e1
        subst e2
        obtain ⟨k1, k2, k3, k4, k5, k6, k7, k8, k9, k10, k11⟩ :=
          createOrderRow_spec o now order_data c b s.pending no db2 hoc
        exact ⟨k5, k6, k7, k8⟩
  cases hres : OrderService.create_order_with_client_and_bill o now today order_data s with
  | mk r s'' =>
      have hframe : s''.committed.clients = s.committed.clients ∧
          s''.committed.bills = s.committed.bills := by
        cases r with
        | error e =>
            rw [create_order_error_spec o now today order_data s e s'' hres]
            exact ⟨rfl, rfl⟩
        | ok ord =>
            obtain ⟨db', hbo, hs'', hcf⟩ :=
              create_order_ok_spec o now today order_data s ord s'' hres
            obtain ⟨_, _, hcl, hbl⟩ := hkey ord db' hbo
            rw [h] at hcl hbl
            rw [hs'']
            exact ⟨hcl, hbl⟩
      refine ⟨hframe.1, hframe.2, ?_⟩
      intro ord s3 hco
      cases r with
      | error e => simp at hco
      | ok ordr =>
          obtain ⟨db', hbo, _, _⟩ :=
            create_order_ok_spec o now today order_data s ordr s'' hres
          obtain ⟨hcid, hbid, _, _⟩ := hkey ordr db' hbo
          simp only [Prod.mk.injEq, Except.ok.injEq] at hco
          rw [← hco.1]
          exact ⟨hcid, hbid⟩

/-- Witness for C4: reusing client 5 and bill 7 leaves both tables alone
and the concrete order row references exactly those ids. -/
theorem create_order_reuses_existing_ids_witness :
    (OrderService.create_order_with_client_and_bill noFaults "20250106120000" "2025-01-06"
        sampleData sess0).2.committed.clients = sess0.committed.clients ∧
    ord0.client_id = 5 ∧ ord0.bill_id = 7 := by
  have hmain := create_order_reuses_existing_ids noFaults "20250106120000" "2025-01-06"
    sampleData sess0 5 7 rfl rfl (by decide) ⟨client5, by decide, by decide⟩
    rfl (by decide) ⟨bill7, by decide, by decide⟩
  exact ⟨hmain.1, hmain.2.2 ord0 sess1 (by rfl)⟩

/-- C2 counterexample: the claim maps input integer 1 to the canonical
DRIVE_THRU enum value; the created Order row of the concrete run instead
stores the raw integer 1, which is not `"drive_thru"`. -/
theorem delivery_method_not_canonical :
    (OrderService.create_order_with_client_and_bill noFaults "20250106120000" "2025-01-06"
        sampleData sess0).1.map (fun ord => ord.delivery_method) = .ok (.vint 1) ∧
    PyVal.vint 1 ≠ .vstr DeliveryMethod.DRIVE_THRU.value :=
  ⟨by rfl, by decide⟩

/-- C2 (amended): schema validation accepts exactly the integers 1, 2, 3
and the three canonical strings, rejecting every other int or string with
a ValueError (it does not default them), and passes an absent value
through; the workflow then stores the raw accepted value unchanged on the
Order row, storing the raw integer 3 when the field is absent or falsy —
no conversion to the DeliveryMethod enum happens. -/
theorem delivery_method_validation_and_raw_storage :
    (∀ n : Int, (∃ w, validate_delivery_method (some (.vint n)) = .ok w) ↔
      (n = 1 ∨ n = 2 ∨ n = 3)) ∧
    (∀ t : String, (∃ w, validate_delivery_method (some (.vstr t)) = .ok w) ↔
      (t = "drive_thru" ∨ t = "on_hand" ∨ t = "home_delivery")) ∧
    (validate_delivery_method none = .ok none) ∧
    (∀ o now today d s ord s',
      OrderService.create_order_with_client_and_bill o now today d s = (.ok ord, s') →
      (∀ v, d.delivery_method = some v → v.truthy = true → ord.delivery_method = v) ∧
      ((d.delivery_method = none ∨
          ∃ v, d.delivery_method = some v ∧ v.truthy = false) →
        ord.delivery_method = .vint 3)) := by
  refine ⟨?_, ?_, rfl, ?_⟩
  · intro n
    constructor
    · rintro ⟨w, hw⟩
      by_cases hn : n ∈ valid_ints
      · simpa [valid_ints] using hn
      · simp [validate_delivery_method, hn] at hw
    · intro hn
      have hmem : n ∈ valid_ints := by simpa [valid_ints] using hn
      exact ⟨some (.vint n), by simp [validate_delivery_method, hmem]⟩
  · intro t
    constructor
    · rintro ⟨w, hw⟩
      by_cases ht : t ∈ valid_strings
      · simpa [valid_strings] using ht
      · simp [validate_delivery_method, ht] at hw
    · intro ht
      have hmem : t ∈ valid_strings := by simpa [valid_strings] using ht
      exact ⟨some (.vstr t), by simp [validate_delivery_method, hmem]⟩
  · intro o now today d s ord s' hrun
    obtain ⟨db', hbo, _, _⟩ := create_order_ok_spec o now today d s ord s' hrun
    have p6 := (orderBody_spec o now today d s.pending ord db' hbo).2.2.2.2.2.1
    constructor
    · intro v hv htr
      rw [p6, hv]
      simp [pyOr, htr]
    · rintro (hnone | ⟨v, hv, hfalse⟩)
      · rw [p6, hnone]
        rfl
      · rw [p6, hv]
        simp [pyOr, hfalse]

/-- Witness for the amended C2: validation accepts 2, and the concrete run
stores the raw integer it was given. -/
theorem delivery_method_validation_and_raw_storage_witness :
    (∃ w, validate_delivery_method (some (.vint 2)) = .ok w) ∧
    ord0.delivery_method = .vint 1 :=
  ⟨(delivery_method_validation_and_raw_storage.1 2).mpr (by decide),
    (delivery_method_validation_and_raw_storage.2.2.2 noFaults "20250106120000" "2025-01-06"
      sampleData sess0 ord0 sess1 (by rfl)).1 (.vint 1) rfl (by decide)⟩

/-- C6 counterexample: the created Order row of the concrete run stores
status integer 1, which is not the canonical `Status.PENDING` value
`"pending"`. -/
theorem order_status_not_canonical :
    (OrderService.create_order_with_client_and_bill noFaults "20250106120000" "2025-01-06"
        sampleData sess0).1.map (fun ord => ord.status) = .ok (.vint 1) ∧
    PyVal.vint 1 ≠ .vstr Status.PENDING.value :=
  ⟨by rfl, by decide⟩

/-- C6 (amended): every Order row the workflow creates carries the raw
integer status code 1 (the code's comment-level encoding of PENDING),
which is not the canonical Status enum value `"pending"`. -/
theorem order_status_is_integer_one (o : FaultOracle) (now today : String)
    (d : OrderSchema) (s : Session) (ord : OrderRow) (s' : Session)
    (hrun : OrderService.create_order_with_client_and_bill o now today d s = (.ok ord, s')) :
    ord.status = .vint 1 ∧ ord.status ≠ .vstr Status.PENDING.value := by
  obtain ⟨db', hbo, _, _⟩ := create_order_ok_spec o now today d s ord s' hrun
  have p7 := (orderBody_spec o now today d s.pending ord db' hbo).2.2.2.2.2.2.1
  refine ⟨p7, ?_⟩
  rw [p7]
  decide

/-- Witness for the amended C6 at the concrete run. -/
theorem order_status_is_integer_one_witness :
    ord0.status = .vint 1 ∧ ord0.status ≠ .vstr Status.PENDING.value :=
  order_status_is_integer_one noFaults "20250106120000" "2025-01-06" sampleData sess0
    ord0 sess1 (by rfl)

/-- C3 evaluated at the failing input: a guest order (no `client_id`, an
email not yet registered) dies at the client INSERT because
`clients.hashed_password` is declared NOT NULL while the service supplies
no password; the whole order errors and nothing is persisted. -/
theorem guest_client_insert_fails :
    (OrderService.create_order_with_client_and_bill noFaults "20250106120000" "2025-01-06"
        guestData sess0).1 =
      .error "NOT NULL constraint failed: clients.hashed_password" ∧
    (OrderService.create_order_with_client_and_bill noFaults "20250106120000" "2025-01-06"
        guestData sess0).2.committed = db0 :=
  ⟨by rfl, by rfl⟩

/-- C5 counterexample: the concrete run commits successfully, yet the
session records no attempt to hand a confirmation email to SMTP — the
workflow never calls the email utility. -/
theorem email_not_attempted :
    (OrderService.create_order_with_client_and_bill noFaults "20250106120000" "2025-01-06"
        sampleData sess0).1.map (fun _ => ()) = .ok () ∧
    (OrderService.create_order_with_client_and_bill noFaults "20250106120000" "2025-01-06"
        sampleData sess0).2.sent_emails = [] :=
  ⟨by rfl, by rfl⟩

/-- C5 (amended): the order-creation workflow never hands an email to the
SMTP collaborator (the utility has no caller in the sources), and the
utility itself returns normally on every SMTP failure, logging it instead
of raising. -/
theorem email_no_call_and_failures_swallowed :
    (∀ o now today d s,
      (OrderService.create_order_with_client_and_bill o now today d s).2.sent_emails =
        s.sent_emails) ∧
    (∀ cfg ce cn oid tot dets outcome msg, smtpSessionRun outcome = .error msg →
      send_order_confirmation_email cfg ce cn oid tot dets outcome = .skipped ∨
      send_order_confirmation_email cfg ce cn oid tot dets outcome = .failedLogged msg) := by
  constructor
  · intro o now today d s
    cases hres : OrderService.create_order_with_client_and_bill o now today d s with
    | mk r s'' =>
        cases r with
        | error e => rw [create_order_error_spec o now today d s e s'' hres]
        | ok ord =>
            obtain ⟨db', _, hs'', _⟩ := create_order_ok_spec o now today d s ord s'' hres
            rw [hs'']
  · intro cfg ce cn oid tot dets outcome msg hfail
    unfold send_order_confirmation_email
    split
    · exact Or.inl rfl
    · rw [hfail]
      exact Or.inr rfl

/-- Witness for the amended C5: the concrete run sends nothing, and a
failing SMTP delivery is returned as a logged failure, not an exception. -/
theorem email_no_call_and_failures_swallowed_witness :
    (OrderService.create_order_with_client_and_bill noFaults "20250106120000" "2025-01-06"
        sampleData sess0).2.sent_emails = [] ∧
    (send_order_confirmation_email ⟨some "user", some "pass"⟩ "a@b.c" "Ana" 1 10 []
        (.failure "boom") = .skipped ∨
      send_order_confirmation_email ⟨some "user", some "pass"⟩ "a@b.c" "Ana" 1 10 []
        (.failure "boom") = .failedLogged "boom") :=
  ⟨email_no_call_and_failures_swallowed.1 noFaults "20250106120000" "2025-01-06" sampleData sess0,
    email_no_call_and_failures_swallowed.2 ⟨some "user", some "pass"⟩ "a@b.c" "Ana" 1 10 []
      (.failure "boom") "boom" rfl⟩

end Final2025
